import Mathlib

/-!
# Shallow embedding of `src/rmf/rmf-loader.c`

The RMF loader is a bounds-checked sequential cursor over an immutable byte
buffer (`GBytes`), a primitive decoder for the version float, version/magic
gating, and a structural trace facility built on a stack of open tag names.

Modelling conventions:
* bytes are `Nat` values (a `GBytes` buffer becomes `List Nat`);
* the `goffset` cursor is modelled as `Nat`: the loader only ever assigns
  offset `0` and advances it by the width of a read, so every reachable
  offset is non-negative;
* `rmf_float` values are modelled exactly: every finite IEEE-754
  single-precision value is an integer multiple of `2 ^ (-149)` (the
  smallest positive subnormal), so a float value is encoded as that
  integer (`ℤ`, the value scaled by `2 ^ 149`).  The encoding preserves
  order and equality, which is all the loader ever uses of version
  values; the constants `1.6f` and `2.2f` are given by their exact
  encodings;
* glib log output (`g_info`, `g_printerr`) is modelled as returned strings
  and diagnostic events;
* a `memcpy` from the null pointer that `g_bytes_get_region` returns on a
  bounds violation is undefined behavior at runtime and is modelled as an
  explicit `crash` outcome.
-/

set_option autoImplicit false
set_option maxRecDepth 4000

namespace Rmf

/-- The fields of `struct _RmfLoader` that carry decoding state: the
diagnostic source label, the data buffer, the cursor offset, the trace tag
stack, the decoded version and the root record (opaque here, identified by
a `Nat`, `none` while no root has been stored). -/
structure LoaderState where
  source : String
  data : List Nat
  offset : Nat
  tag_stack : List String
  version : ℤ
  root : Option Nat
  deriving DecidableEq, Repr

/-- glib's `g_bytes_get_region (bytes, element_size, offset, n_elements)`:
returns a pointer to the requested span when it lies entirely inside the
buffer and `element_size` is non-zero, and `NULL` (here `none`) otherwise.
The loader always calls it with `element_size = 1`. -/
def g_bytes_get_region (data : List Nat) (element_size offset n_elements : Nat) :
    Option (List Nat) :=
  if 0 < element_size ∧ offset + element_size * n_elements ≤ data.length then
    some ((data.drop offset).take (element_size * n_elements))
  else
    none

/-- Outcome of `rmf_loader_read`.  The C function returns `void`; its only
observable outcomes are a successful copy plus cursor advance, or — when
`g_bytes_get_region` reports a bounds violation by returning `NULL` — the
undefined behavior of `memcpy`ing from the null pointer, modelled as
`crash`. -/
inductive ReadResult where
  /-- `g_bytes_get_region` returned `NULL` and the code passed it to
  `memcpy` unchecked: undefined behavior (in practice a crash). -/
  | crash
  /-- The bytes written to `dest`, and the loader afterwards. -/
  | ok (dest : List Nat) (s : LoaderState)
  deriving DecidableEq, Repr

/-- `rmf_loader_read (self, n, dest)` (rmf-loader.c:328-334): requests
`g_bytes_get_region (self->data, 1, self->offset, n)`, `memcpy`s the result
into `dest` without checking it for `NULL`, then advances
`self->offset += n`. -/
def rmf_loader_read (s : LoaderState) (n : Nat) : ReadResult :=
  match g_bytes_get_region s.data 1 s.offset n with
  | none => .crash
  | some src => .ok src { s with offset := s.offset + n }

/-- Assemble a 32-bit word from the first four bytes of a little-endian
byte list. -/
def bytesToBits32 (b : List Nat) : Nat :=
  b.getD 0 0 + 256 * b.getD 1 0 + 65536 * b.getD 2 0 + 16777216 * b.getD 3 0

/-- Modelled from the spec: the byte-to-value interpretation used by
`rmf_read_float` (declared in `rmf-private.h`, implementation not under
`src/`): "interpret the resulting bytes according to the kind's fixed
binary layout (e.g., IEEE-754 single precision for float)".  Little-endian
IEEE-754 single precision, decoded to its exact value in units of
`2 ^ (-149)`: a normal number `±(2^23 + frac) * 2^(expo - 150)` encodes as
`±(2^23 + frac) * 2^(expo - 1)`, a subnormal `±frac * 2^(-149)` as
`±frac`.  An infinity or NaN (exponent field all ones) has no such value
and yields `none`. -/
def decodeFloat32 (b : List Nat) : Option ℤ :=
  let bits : Nat := bytesToBits32 b
  let sign : Nat := bits / 2 ^ 31 % 2
  let expo : Nat := bits / 2 ^ 23 % 2 ^ 8
  let frac : Nat := bits % 2 ^ 23
  if expo = 255 then none
  else
    let mag : ℤ := if expo = 0 then frac else (2 ^ 23 + frac) * 2 ^ (expo - 1)
    some (if sign = 1 then -mag else mag)

/-- `RMF_MIN_SUPPORTED_VERSION = 1.6f` (rmf-loader.c:26): the exact value
of the float literal `1.6f` (`13421773 * 2 ^ (-23)`), scaled by
`2 ^ 149`. -/
def RMF_MIN_SUPPORTED_VERSION : ℤ := 13421773 * 2 ^ 126

/-- `RMF_MAX_SUPPORTED_VERSION = 2.2f` (rmf-loader.c:27): the exact value
of the float literal `2.2f` (`9227469 * 2 ^ (-22)`), scaled by
`2 ^ 149`. -/
def RMF_MAX_SUPPORTED_VERSION : ℤ := 9227469 * 2 ^ 127

/-- The bytes of the 3-byte magic literal `"RMF"` (`'R' = 82`, `'M' = 77`,
`'F' = 70`). -/
def rmfMagic : List Nat := [82, 77, 70]

-- Trace output ---------------------------------------------------------------

/-- Zero-pad a digit string to a minimum width of 8 characters, as the
printf width specification `%08` does for a non-negative value. -/
def zero_pad8 (digits : String) : String :=
  String.mk (List.replicate (8 - digits.length) '0') ++ digits

/-- The `g_info ("%s+%08" G_GOFFSET_FORMAT "x: %s", self->source,
self->offset, indented)` line shared by all three trace functions
(rmf-loader.c:383,405,414).  `G_GOFFSET_FORMAT` expands to the full
conversion `"li"` (64-bit signed decimal), so the directive is `%08li` —
the offset printed in decimal, zero-padded to 8 digits — followed by the
literal character `x`.  Reachable offsets are non-negative, so the decimal
rendering is `Nat.repr`. -/
def log_line (source : String) (offset : Nat) (payload : String) : String :=
  source ++ "+" ++ zero_pad8 (Nat.repr offset) ++ "x: " ++ payload

/-- A lowercase hexadecimal rendering zero-padded to 8 digits. -/
def hex8 (n : Nat) : String :=
  zero_pad8 (String.mk (Nat.toDigits 16 n))

/-- Follows the spec's words (§6), for comparison with `log_line`: one
line per trace event, format
`<source-label>+<8-hex-digit offset>x: <indentation><XML-like element text>`,
the offset rendered as 8 hexadecimal digits. -/
def spec_log_line (source : String) (offset : Nat) (payload : String) : String :=
  source ++ "+" ++ hex8 offset ++ "x: " ++ payload

/-- `make_tag` (rmf-loader.c:337-355): joins the tag name and the
formatted `key="value"` attribute pairs with single spaces.  The variadic
`(attr, attrfmt, args…)` list is modelled, as §9 of the spec directs, as
an explicit ordered list of key/formatted-value string pairs. -/
def make_tag (tag : String) (attrs : List (String × String)) : String :=
  String.intercalate " "
    (tag :: attrs.map fun kv => kv.1 ++ "=\"" ++ kv.2 ++ "\"")

/-- `indent (n, str)` (rmf-loader.c:357-370): prepends
`n * INDENT_WIDTH` spaces (`INDENT_WIDTH = 2`) to `str`. -/
def indent (n : Nat) (str : String) : String :=
  String.mk (List.replicate (n * 2) ' ') ++ str

/-- `rmf_loader_log_begin (self, tag, …)` (rmf-loader.c:372-384): pushes
`tag` onto the tag stack, renders `<tag attr="value" …>` indented by the
post-push stack depth minus one (the pre-push depth), and logs one line.
Returns the mutated loader and the logged line. -/
def rmf_loader_log_begin (s : LoaderState) (tag : String)
    (attrs : List (String × String)) : LoaderState × String :=
  let stack := s.tag_stack ++ [tag]
  let xml := "<" ++ make_tag tag attrs ++ ">"
  ({ s with tag_stack := stack },
   log_line s.source s.offset (indent (stack.length - 1) xml))

/-- `rmf_loader_log_oneline (self, tag, content, …)`
(rmf-loader.c:386-406): renders `<tag …/>` when `content` is null and
`<tag …>content</tag>` otherwise, indented by the current stack depth,
and logs one line.  The loader is not mutated; the unchanged state is
returned alongside the line. -/
def rmf_loader_log_oneline (s : LoaderState) (tag : String)
    (content : Option String) (attrs : List (String × String)) :
    LoaderState × String :=
  let result := make_tag tag attrs
  let xml :=
    match content with
    | none => "<" ++ result ++ "/>"
    | some c => "<" ++ result ++ ">" ++ c ++ "</" ++ tag ++ ">"
  (s, log_line s.source s.offset (indent s.tag_stack.length xml))

/-- Outcome of `rmf_loader_log_end`. -/
structure LogEndResult where
  /-- Whether a glib critical was raised (the `g_return_val_if_fail`
  inside `g_ptr_array_remove_index` on an out-of-range index). -/
  critical : Bool
  state : LoaderState
  line : String
  deriving DecidableEq, Repr

/-- `rmf_loader_log_end (self)` (rmf-loader.c:408-415): pops the last tag
with `g_ptr_array_remove_index (tag_stack, len - 1)` and logs `</tag>`
indented by the post-pop stack depth.  On an empty stack the pop hits
`g_ptr_array_remove_index`'s `g_return_val_if_fail` guard — a glib
critical, not fatal — which leaves the stack unchanged and returns
`NULL`; the function then still renders the null tag (glibc printf prints
`(null)` for a null `%s` argument) and logs the line. -/
def rmf_loader_log_end (s : LoaderState) : LogEndResult :=
  match s.tag_stack.getLast? with
  | none =>
      { critical := true
        state := s
        line := log_line s.source s.offset
          (indent s.tag_stack.length ("</" ++ "(null)" ++ ">")) }
  | some tag =>
      let stack := s.tag_stack.dropLast
      { critical := false
        state := { s with tag_stack := stack }
        line := log_line s.source s.offset
          (indent stack.length ("</" ++ tag ++ ">")) }

-- Loading --------------------------------------------------------------------

/-- Outcome of `rmf_read_float`. -/
inductive FloatReadResult where
  /-- The underlying `rmf_loader_read` crashed (out-of-bounds region
  passed to `memcpy`). -/
  | crash
  /-- The four bytes encode an infinity or NaN, which has no value in the
  exact scaled-integer model. -/
  | nonfinite
  /-- The decoded value and the loader afterwards (cursor advanced by 4;
  the caller's destination is the loader's `version` field, so it is
  written here). -/
  | ok (v : ℤ) (s : LoaderState)
  deriving DecidableEq, Repr

/-- Modelled from the spec: `rmf_read_float (self, &self->version)` is
declared in `rmf-private.h` but implemented outside `src/`.  Per §4.3 the
decoder "read[s] the kind's fixed encoded width via Cursor.read" — four
bytes through `rmf_loader_read` — and "interpret[s] the resulting bytes
according to the kind's fixed binary layout (e.g., IEEE-754 single
precision for float)", writing the result into the caller-provided
output, which at the call site in `rmf_loader_load_from_file` is the
loader's own `version` field. -/
def rmf_read_float (s : LoaderState) : FloatReadResult :=
  match rmf_loader_read s 4 with
  | .crash => .crash
  | .ok bytes s' =>
      match decodeFloat32 bytes with
      | none => .nonfinite
      | some v => .ok v { s' with version := v }

/-- Modelled from the spec: the printf `%g` rendering of the version
float used as the `version` attribute of the `<rmf>` trace scope.  No
claim constrains this text, so the model renders the scaled-integer
version value directly. -/
def g_fmt_version (v : ℤ) : String := toString v

/-- An observable event of `rmf_loader_load_from_file`: a `g_printerr`
diagnostic, a trace line, or the construction of the root record. -/
inductive LoadEvent where
  /-- `g_printerr ("Unsupported RMF version …")` (rmf-loader.c:266-271). -/
  | diagUnsupportedVersion (v : ℤ)
  /-- `g_printerr ("Invalid RMF magic number …")` (rmf-loader.c:277). -/
  | diagInvalidMagic (magic : List Nat)
  /-- A `g_info` trace line. -/
  | traceLine (line : String)
  /-- `rmf_root_new (self)` returned this root record. -/
  | rootBuilt (root : Nat)
  deriving DecidableEq, Repr

/-- Outcome of `rmf_loader_load_from_file`, with the events emitted up to
that point. -/
inductive LoadResult where
  /-- `g_file_load_bytes` failed with the caller's `GError` out-parameter
  set: the function returned before touching the loader, whose state is
  carried here unchanged. -/
  | earlyError (s : LoaderState)
  /-- A read went out of bounds: `memcpy` from the null region pointer,
  undefined behavior. -/
  | crash (events : List LoadEvent)
  /-- The version bytes decode to an IEEE-754 infinity or NaN; the
  continuation is outside the exact scaled-integer model. -/
  | nonfiniteVersion
  /-- The function ran to completion. -/
  | ok (events : List LoadEvent) (final : LoaderState)
  deriving DecidableEq, Repr

/-- `rmf_loader_load_from_file (self, file, error)` (rmf-loader.c:246-284).
`fileBytes` is the result of `g_file_load_bytes` (`none` when it failed),
`errorProvided` whether the caller passed a non-null `GError **`, `src`
the display basename of the file, and `rmf_root_new` the external
root-record collaborator (it receives the loader as context and returns
the new root and the loader as it left it).  The body: on a reported load
failure return untouched; otherwise set `source`/`data`, reset `offset`
to 0, decode the version float, diagnose a version outside
`[RMF_MIN_SUPPORTED_VERSION, RMF_MAX_SUPPORTED_VERSION]` (continuing
regardless), read and check the 3 magic bytes against `"RMF"` (again
continuing regardless), open the `<rmf version="…">` trace scope, build
and store the root, and close the trace scope. -/
def rmf_loader_load_from_file (s : LoaderState) (fileBytes : Option (List Nat))
    (errorProvided : Bool) (src : String)
    (rmf_root_new : LoaderState → Nat × LoaderState) : LoadResult :=
  match fileBytes with
  | none =>
      if errorProvided then .earlyError s
      else
        -- `error` was null, so `if (error && *error)` is false and the
        -- function continues with `data = NULL`; the first read then
        -- dereferences a null `GBytes`.
        .crash []
  | some bytes =>
      let s1 : LoaderState := { s with source := src, data := bytes, offset := 0 }
      match rmf_read_float s1 with
      | .crash => .crash []
      | .nonfinite => .nonfiniteVersion
      | .ok v s2 =>
          let ev1 : List LoadEvent :=
            if v < RMF_MIN_SUPPORTED_VERSION ∨ RMF_MAX_SUPPORTED_VERSION < v
            then [.diagUnsupportedVersion v] else []
          match rmf_loader_read s2 3 with
          | .crash => .crash ev1
          | .ok magic s3 =>
              let ev2 : List LoadEvent :=
                if magic ≠ rmfMagic then [.diagInvalidMagic magic] else []
              let opened := rmf_loader_log_begin s3 "rmf"
                [("version", g_fmt_version v)]
              let built := rmf_root_new opened.1
              let s6 : LoaderState := { built.2 with root := some built.1 }
              let endR := rmf_loader_log_end s6
              .ok (ev1 ++ ev2
                    ++ [.traceLine opened.2, .rootBuilt built.1,
                        .traceLine endR.line])
                  endR.state

-- Sequences of paired trace calls --------------------------------------------

/-- A call to one of the paired trace operations. -/
inductive TraceCall where
  | openTag (tag : String) (attrs : List (String × String))
  | closeTag
  deriving DecidableEq, Repr

/-- Run a sequence of trace calls against the loader: `openTag` is
`rmf_loader_log_begin`, `closeTag` is `rmf_loader_log_end`.  Returns the
final loader, the logged lines in order, and whether any call raised a
glib critical. -/
def runTrace : LoaderState → List TraceCall → LoaderState × List String × Bool
  | s, [] => (s, [], false)
  | s, .openTag t a :: cs =>
      let r := rmf_loader_log_begin s t a
      let rest := runTrace r.1 cs
      (rest.1, r.2 :: rest.2.1, rest.2.2)
  | s, .closeTag :: cs =>
      let r := rmf_loader_log_end s
      let rest := runTrace r.state cs
      (rest.1, r.line :: rest.2.1, r.critical || rest.2.2)

/-- The stack depth recorded for each emitted line when the run starts at
depth `d`: the pre-push depth for an open line, the post-pop depth for a
close line. -/
def depthsOf : Nat → List TraceCall → List Nat
  | _, [] => []
  | d, .openTag _ _ :: cs => d :: depthsOf (d + 1) cs
  | d, .closeTag :: cs => (d - 1) :: depthsOf (d - 1) cs

/-- The element text of each emitted line when the run starts with tag
stack `st`. -/
def xmlsOf : List String → List TraceCall → List String
  | _, [] => []
  | st, .openTag t a :: cs =>
      ("<" ++ make_tag t a ++ ">") :: xmlsOf (st ++ [t]) cs
  | st, .closeTag :: cs =>
      ("</" ++ (st.getLast?.getD "(null)") ++ ">") :: xmlsOf st.dropLast cs

/-- `balancedAux d cs`: with `d` tags already open, every close in `cs`
has a matching earlier open and the depth at the end is zero. -/
def balancedAux : Nat → List TraceCall → Bool
  | d, [] => d == 0
  | d, .openTag _ _ :: cs => balancedAux (d + 1) cs
  | 0, .closeTag :: _ => false
  | d + 1, .closeTag :: cs => balancedAux d cs

/-- A balanced sequence of trace calls: starting from an empty stack,
every close matches an open and the stack is empty at the end. -/
def Balanced (cs : List TraceCall) : Prop := balancedAux 0 cs = true

instance : DecidablePred Balanced := fun cs =>
  inferInstanceAs (Decidable (balancedAux 0 cs = true))

-- Theorems -------------------------------------------------------------------

/-- C1: the claim fails on the code.  At a loader whose buffer is empty, a
1-byte read is out of bounds: `g_bytes_get_region` returns null and
`rmf_loader_read` passes it to `memcpy` unchecked — undefined behavior
(`crash`), not an OutOfBounds condition propagated to the caller (the
function returns `void` and has no error out-parameter); and had the
`memcpy` returned, `self->offset += n` would still have executed. -/
theorem read_out_of_bounds_crashes :
    rmf_loader_read ⟨"f", [], 0, [], 0, none⟩ 1 = .crash := by decide

/-- C2: for a loader whose buffer has length `L` and offset `off`, and any
`n` with `off + n ≤ L`, `rmf_loader_read` yields exactly the bytes
`data[off .. off+n)` and the loader with offset `off + n`. -/
theorem read_in_bounds (s : LoaderState) (n : Nat)
    (h : s.offset + n ≤ s.data.length) :
    rmf_loader_read s n
      = .ok ((s.data.drop s.offset).take n) { s with offset := s.offset + n } := by
  simp [rmf_loader_read, g_bytes_get_region, h]

/-- Witness for C2 at a concrete loader: buffer `[1, 2, 3]`, offset 1,
reading 2 bytes yields `[2, 3]` and offset 3. -/
theorem read_in_bounds_witness :
    1 + 2 ≤ 3 ∧
      rmf_loader_read ⟨"f", [1, 2, 3], 1, [], 0, none⟩ 2
        = .ok [2, 3] ⟨"f", [1, 2, 3], 3, [], 0, none⟩ :=
  ⟨by decide, by
    simpa using read_in_bounds ⟨"f", [1, 2, 3], 1, [], 0, none⟩ 2 (by decide)⟩

/-- C7: the claim fails on the code.  The trace format string is
`"%s+%08" G_GOFFSET_FORMAT "x: %s"` and `G_GOFFSET_FORMAT` is the full
conversion `"li"`, so the offset is printed as zero-padded *decimal*
followed by a literal `x`, not as 8 hex digits: at offset 10 the code
emits `…+00000010x: …` where the spec's hex format would be
`…+0000000ax: …`.  (The trailing literal `x` in the format string shows
the intent was a hexadecimal conversion.) -/
theorem log_offset_decimal_not_hex :
    (rmf_loader_log_oneline ⟨"f", [], 10, [], 0, none⟩ "t" none []).2
        = "f+00000010x: <t/>" ∧
      spec_log_line "f" 10 "<t/>" = "f+0000000ax: <t/>" ∧
      ("f+00000010x: <t/>" : String) ≠ "f+0000000ax: <t/>" := by
  refine ⟨by decide, by decide, by decide⟩

/-- C8: `rmf_loader_log_oneline` emits exactly one line — self-closing
`<tag …/>` when `content` is null, `<tag …>content</tag>` otherwise —
indented by the current stack depth, and does not mutate the loader (in
particular not the tag stack). -/
theorem log_oneline_single_line_no_mutation (s : LoaderState) (tag : String)
    (attrs : List (String × String)) (c : String) :
    rmf_loader_log_oneline s tag none attrs
        = (s, log_line s.source s.offset
            (indent s.tag_stack.length ("<" ++ make_tag tag attrs ++ "/>"))) ∧
      rmf_loader_log_oneline s tag (some c) attrs
        = (s, log_line s.source s.offset
            (indent s.tag_stack.length
              ("<" ++ make_tag tag attrs ++ ">" ++ c ++ "</" ++ tag ++ ">"))) :=
  ⟨rfl, rfl⟩

/-- C9: when `g_file_load_bytes` fails with the caller's `GError`
out-parameter set, `rmf_loader_load_from_file` returns before mutating
anything: source, data, offset, version, root and the tag stack all keep
exactly their prior values. -/
theorem load_input_error_atomic (s : LoaderState) (src : String)
    (builder : LoaderState → Nat × LoaderState) :
    ∃ s', rmf_loader_load_from_file s none true src builder = .earlyError s' ∧
      s'.source = s.source ∧ s'.data = s.data ∧ s'.offset = s.offset ∧
      s'.version = s.version ∧ s'.root = s.root ∧ s'.tag_stack = s.tag_stack :=
  ⟨s, rfl, rfl, rfl, rfl, rfl, rfl, rfl⟩

/-- C10: the trace operations touch no loader field except the tag stack:
`rmf_loader_log_begin` and `rmf_loader_log_end` preserve source, data,
offset, version and root, and `rmf_loader_log_oneline` returns the loader
entirely unchanged. -/
theorem log_ops_frame (s : LoaderState) (tag : String)
    (content : Option String) (attrs : List (String × String)) :
    ((rmf_loader_log_begin s tag attrs).1.source = s.source ∧
      (rmf_loader_log_begin s tag attrs).1.data = s.data ∧
      (rmf_loader_log_begin s tag attrs).1.offset = s.offset ∧
      (rmf_loader_log_begin s tag attrs).1.version = s.version ∧
      (rmf_loader_log_begin s tag attrs).1.root = s.root) ∧
    ((rmf_loader_log_end s).state.source = s.source ∧
      (rmf_loader_log_end s).state.data = s.data ∧
      (rmf_loader_log_end s).state.offset = s.offset ∧
      (rmf_loader_log_end s).state.version = s.version ∧
      (rmf_loader_log_end s).state.root = s.root) ∧
    (rmf_loader_log_oneline s tag content attrs).1 = s := by
  refine ⟨⟨rfl, rfl, rfl, rfl, rfl⟩, ?_, rfl⟩
  cases h : s.tag_stack.getLast? <;>
    simp [rmf_loader_log_end, h]

/-- C5 counterexample: the claim says a close on an empty tag stack
"fails (fatal)" rather than emitting a line.  On the code, the failed pop
only raises a glib critical (`g_return_val_if_fail` inside
`g_ptr_array_remove_index` — non-fatal), the function returns normally
with the loader unchanged, and a closing-format line for the null tag is
still emitted. -/
theorem log_end_empty_stack_still_emits :
    rmf_loader_log_end ⟨"f", [], 0, [], 0, none⟩
      = ⟨true, ⟨"f", [], 0, [], 0, none⟩, "f+00000000x: </(null)>"⟩ := by
  decide

/-- C5 (amended): invoking `rmf_loader_log_end` on an empty tag stack is
a programmer error diagnosed by a non-fatal glib critical from the failed
pop; the stack (indeed the whole loader) is left unchanged and a
malformed closing line for the null tag — `</(null)>` under glibc printf
— is still emitted at indentation depth 0.  Every close should still be
paired with a prior open. -/
theorem log_end_empty_stack_critical (s : LoaderState)
    (h : s.tag_stack = []) :
    rmf_loader_log_end s
      = ⟨true, s, log_line s.source s.offset (indent 0 "</(null)>")⟩ := by
  have hl : s.tag_stack.getLast? = none := by rw [h]; rfl
  simp [rmf_loader_log_end, hl, h]

/-- Witness for the amended C5 at a concrete empty-stack loader. -/
theorem log_end_empty_stack_critical_witness :
    (⟨"g", [7], 5, [], 0, none⟩ : LoaderState).tag_stack = [] ∧
      rmf_loader_log_end ⟨"g", [7], 5, [], 0, none⟩
        = ⟨true, ⟨"g", [7], 5, [], 0, none⟩,
            log_line "g" 5 (indent 0 "</(null)>")⟩ :=
  ⟨rfl, log_end_empty_stack_critical ⟨"g", [7], 5, [], 0, none⟩ rfl⟩

/-- Running a sequence of trace calls that is balanced relative to the
current stack depth empties the tag stack, raises no critical, touches no
other loader field, and emits for each call exactly the line indented by
its recorded stack depth (`depthsOf`: pre-push for opens, post-pop for
closes) with its element text (`xmlsOf`). -/
theorem runTrace_balancedAux (cs : List TraceCall) :
    ∀ s : LoaderState, balancedAux s.tag_stack.length cs = true →
      runTrace s cs
        = ({ s with tag_stack := [] },
           List.zipWith (fun d x => log_line s.source s.offset (indent d x))
             (depthsOf s.tag_stack.length cs) (xmlsOf s.tag_stack cs),
           false) := by
  induction cs with
  | nil =>
      intro s h
      have h0 : s.tag_stack = [] := by
        simpa [balancedAux, List.length_eq_zero] using h
      cases s
      simp_all [runTrace, depthsOf, xmlsOf]
  | cons c cs ih =>
      intro s h
      cases c with
      | openTag t a =>
          have hb : balancedAux
              (({ s with tag_stack := s.tag_stack ++ [t] } :
                LoaderState)).tag_stack.length cs = true := by
            simpa [balancedAux] using h
          have hrec := ih { s with tag_stack := s.tag_stack ++ [t] } hb
          simp only [runTrace, rmf_loader_log_begin, hrec, depthsOf, xmlsOf,
            List.zipWith]
          cases s
          simp
      | closeTag =>
          rcases List.eq_nil_or_concat s.tag_stack with hnil | ⟨l, x, hcat⟩
          · rw [hnil] at h
            simp [balancedAux] at h
          · have hb : balancedAux
                (({ s with tag_stack := l } : LoaderState)).tag_stack.length
                  cs = true := by
              rw [hcat] at h
              simpa [balancedAux] using h
            have hrec := ih { s with tag_stack := l } hb
            have hend : rmf_loader_log_end s
                = { critical := false, state := { s with tag_stack := l },
                    line := log_line s.source s.offset
                      (indent l.length ("</" ++ x ++ ">")) } := by
              simp [rmf_loader_log_end, hcat]
            simp only [runTrace, hend, hrec, hcat, depthsOf, xmlsOf,
              List.zipWith]
            simp

/-- C6: for any sequence of balanced open/close trace calls starting from
an empty tag stack, the stack is empty again at the end (the loader is
unchanged), no glib critical is raised, and every emitted line is
`log_line` of its element text indented by exactly the recorded stack
depth at emission time — the pre-push depth for open lines and the
post-pop depth for close lines (`depthsOf`), the unit width being the 2
spaces of `indent`. -/
theorem balanced_trace_empty_stack_and_depth_indent (s : LoaderState)
    (cs : List TraceCall) (hempty : s.tag_stack = []) (hbal : Balanced cs) :
    runTrace s cs
      = (s, List.zipWith (fun d x => log_line s.source s.offset (indent d x))
            (depthsOf 0 cs) (xmlsOf [] cs),
         false) := by
  have h0 : s.tag_stack.length = 0 := by rw [hempty]; rfl
  have := runTrace_balancedAux cs s (by rw [h0]; exact hbal)
  rw [this, h0, hempty]
  cases s
  simp_all

/-- Witness for C6: the balanced sequence
`open "a"; open "b" (k="v"); close; close` run from an empty stack emits
four lines at depths 0, 1, 1, 0 and leaves the loader unchanged. -/
theorem balanced_trace_witness :
    (⟨"f", [], 3, [], 0, none⟩ : LoaderState).tag_stack = [] ∧
      Balanced [.openTag "a" [], .openTag "b" [("k", "v")],
        .closeTag, .closeTag] ∧
      runTrace ⟨"f", [], 3, [], 0, none⟩
          [.openTag "a" [], .openTag "b" [("k", "v")], .closeTag, .closeTag]
        = (⟨"f", [], 3, [], 0, none⟩,
           ["f+00000003x: <a>",
            "f+00000003x:   <b k=\"v\">",
            "f+00000003x:   </b>",
            "f+00000003x: </a>"],
           false) :=
  ⟨rfl, by decide, by
    simpa using balanced_trace_empty_stack_and_depth_indent
      ⟨"f", [], 3, [], 0, none⟩
      [.openTag "a" [], .openTag "b" [("k", "v")], .closeTag, .closeTag]
      rfl (by decide)⟩

/-- Characterization of `rmf_loader_load_from_file` on a buffer long
enough for the 7-byte header (4-byte version float + 3 magic bytes) whose
version bytes decode to a finite value `v`: the version diagnostic is
emitted iff `v` is strictly outside the inclusive supported range, the
magic diagnostic iff bytes 4..6 differ from `"RMF"`, and in all cases the
`<rmf>` trace scope is opened at offset 7, the root is built and stored,
and the scope is closed. -/
theorem load_after_header (s : LoaderState) (bytes : List Nat) (e : Bool)
    (src : String) (builder : LoaderState → Nat × LoaderState) (v : ℤ)
    (h7 : 7 ≤ bytes.length) (hv : decodeFloat32 (bytes.take 4) = some v) :
    rmf_loader_load_from_file s (some bytes) e src builder
      = (let s3 : LoaderState :=
           { s with source := src, data := bytes, offset := 7, version := v }
         let opened := rmf_loader_log_begin s3 "rmf"
           [("version", g_fmt_version v)]
         let built := builder opened.1
         let endR := rmf_loader_log_end { built.2 with root := some built.1 }
         LoadResult.ok
           ((if v < RMF_MIN_SUPPORTED_VERSION ∨ RMF_MAX_SUPPORTED_VERSION < v
             then [LoadEvent.diagUnsupportedVersion v] else [])
            ++ (if (bytes.drop 4).take 3 ≠ rmfMagic
                then [LoadEvent.diagInvalidMagic ((bytes.drop 4).take 3)]
                else [])
            ++ [LoadEvent.traceLine opened.2, LoadEvent.rootBuilt built.1,
                LoadEvent.traceLine endR.line])
           endR.state) := by
  have h4 : 0 + 1 * 4 ≤ bytes.length := by omega
  have h34 : 4 + 1 * 3 ≤ bytes.length := by omega
  simp only [rmf_loader_load_from_file, rmf_read_float, rmf_loader_read,
    g_bytes_get_region, Nat.zero_lt_one, true_and, h4, h34, if_pos,
    List.drop_zero, one_mul, hv]

/-- C3: after decoding a finite version value `v` from the first four
bytes, `rmf_loader_load_from_file` emits the UnsupportedVersion
diagnostic exactly when `v` is strictly outside the inclusive range
`[RMF_MIN_SUPPORTED_VERSION, RMF_MAX_SUPPORTED_VERSION]` (so a version
equal to either bound produces no diagnostic), and decoding continues
regardless: the run completes, the magic bytes at positions 4..6 are
still read and checked, and the root record is still built. -/
theorem version_gate_inclusive_and_nonfatal (s : LoaderState)
    (bytes : List Nat) (e : Bool) (src : String)
    (builder : LoaderState → Nat × LoaderState) (v : ℤ)
    (h7 : 7 ≤ bytes.length) (hv : decodeFloat32 (bytes.take 4) = some v) :
    ∃ events final root,
      rmf_loader_load_from_file s (some bytes) e src builder
          = .ok events final ∧
        ((LoadEvent.diagUnsupportedVersion v ∈ events) ↔
          (v < RMF_MIN_SUPPORTED_VERSION ∨ RMF_MAX_SUPPORTED_VERSION < v)) ∧
        ((LoadEvent.diagInvalidMagic ((bytes.drop 4).take 3) ∈ events) ↔
          (bytes.drop 4).take 3 ≠ rmfMagic) ∧
        LoadEvent.rootBuilt root ∈ events := by
  rw [load_after_header s bytes e src builder v h7 hv]
  dsimp only
  refine ⟨_, _,
    (builder (rmf_loader_log_begin
      { s with source := src, data := bytes, offset := 7, version := v }
      "rmf" [("version", g_fmt_version v)]).1).1,
    rfl, ?_, ?_, ?_⟩
  · by_cases h1 : v < RMF_MIN_SUPPORTED_VERSION ∨ RMF_MAX_SUPPORTED_VERSION < v <;>
      by_cases h2 : (bytes.drop 4).take 3 ≠ rmfMagic <;>
        simp [h1, h2]
  · by_cases h1 : v < RMF_MIN_SUPPORTED_VERSION ∨ RMF_MAX_SUPPORTED_VERSION < v <;>
      by_cases h2 : (bytes.drop 4).take 3 ≠ rmfMagic <;>
        simp [h1, h2]
  · simp

/-- Witness for C3 at a concrete buffer: version bytes `cd cc cc 3f` —
exactly `1.6f`, the lower bound — followed by `"RMF"`; no diagnostic is
possible (the left side of the version iff is false) and the root is
built. -/
theorem version_gate_witness :
    7 ≤ ([205, 204, 204, 63, 82, 77, 70] : List Nat).length ∧
      decodeFloat32 (([205, 204, 204, 63, 82, 77, 70] : List Nat).take 4)
        = some RMF_MIN_SUPPORTED_VERSION ∧
      (∃ events final root,
        rmf_loader_load_from_file ⟨"", [], 0, [], 0, none⟩
            (some [205, 204, 204, 63, 82, 77, 70]) true "f"
            (fun st => (1, st))
          = .ok events final ∧
        ((LoadEvent.diagUnsupportedVersion RMF_MIN_SUPPORTED_VERSION ∈ events) ↔
          (RMF_MIN_SUPPORTED_VERSION < RMF_MIN_SUPPORTED_VERSION ∨
            RMF_MAX_SUPPORTED_VERSION < RMF_MIN_SUPPORTED_VERSION)) ∧
        ((LoadEvent.diagInvalidMagic
            ((([205, 204, 204, 63, 82, 77, 70] : List Nat).drop 4).take 3)
              ∈ events) ↔
          (([205, 204, 204, 63, 82, 77, 70] : List Nat).drop 4).take 3
            ≠ rmfMagic) ∧
        LoadEvent.rootBuilt root ∈ events) :=
  ⟨by decide, by decide,
    version_gate_inclusive_and_nonfatal ⟨"", [], 0, [], 0, none⟩
      [205, 204, 204, 63, 82, 77, 70] true "f" (fun st => (1, st))
      RMF_MIN_SUPPORTED_VERSION (by decide) (by decide)⟩

/-- C4: immediately after the 4 version bytes, exactly the 3 bytes at
positions 4..6 are read and compared against the literal `"RMF"`; on
mismatch the InvalidMagic diagnostic is emitted but the load does not
abort — the `<rmf>` trace scope is still opened (with the cursor at
offset 7, right past the magic) and the root record is still built. -/
theorem magic_check_after_version_nonfatal (s : LoaderState)
    (bytes : List Nat) (e : Bool) (src : String)
    (builder : LoaderState → Nat × LoaderState) (v : ℤ)
    (h7 : 7 ≤ bytes.length) (hv : decodeFloat32 (bytes.take 4) = some v) :
    ∃ events final root,
      rmf_loader_load_from_file s (some bytes) e src builder
          = .ok events final ∧
        ((LoadEvent.diagInvalidMagic ((bytes.drop 4).take 3) ∈ events) ↔
          (bytes.drop 4).take 3 ≠ rmfMagic) ∧
        LoadEvent.traceLine
            (rmf_loader_log_begin
              { s with source := src, data := bytes, offset := 7,
                       version := v }
              "rmf" [("version", g_fmt_version v)]).2 ∈ events ∧
        LoadEvent.rootBuilt root ∈ events := by
  rw [load_after_header s bytes e src builder v h7 hv]
  dsimp only
  refine ⟨_, _,
    (builder (rmf_loader_log_begin
      { s with source := src, data := bytes, offset := 7, version := v }
      "rmf" [("version", g_fmt_version v)]).1).1,
    rfl, ?_, ?_, ?_⟩
  · by_cases h1 : v < RMF_MIN_SUPPORTED_VERSION ∨ RMF_MAX_SUPPORTED_VERSION < v <;>
      by_cases h2 : (bytes.drop 4).take 3 ≠ rmfMagic <;>
        simp [h1, h2]
  · simp
  · simp

/-- Witness for C4 at a concrete buffer: version bytes `00 00 00 40`
(`2.0f`, inside the supported range) followed by `"XYZ"` — a magic
mismatch; the diagnostic is emitted, yet the scope is opened and the root
is built. -/
theorem magic_check_witness :
    7 ≤ ([0, 0, 0, 64, 88, 89, 90] : List Nat).length ∧
      decodeFloat32 (([0, 0, 0, 64, 88, 89, 90] : List Nat).take 4)
        = some (2 ^ 150 : ℤ) ∧
      (∃ events final root,
        rmf_loader_load_from_file ⟨"", [], 0, [], 0, none⟩
            (some [0, 0, 0, 64, 88, 89, 90]) true "f" (fun st => (2, st))
          = .ok events final ∧
        ((LoadEvent.diagInvalidMagic
            ((([0, 0, 0, 64, 88, 89, 90] : List Nat).drop 4).take 3)
              ∈ events) ↔
          (([0, 0, 0, 64, 88, 89, 90] : List Nat).drop 4).take 3
            ≠ rmfMagic) ∧
        LoadEvent.traceLine
            (rmf_loader_log_begin
              { (⟨"", [], 0, [], 0, none⟩ : LoaderState) with
                source := "f", data := [0, 0, 0, 64, 88, 89, 90],
                offset := 7, version := (2 ^ 150 : ℤ) }
              "rmf" [("version", g_fmt_version (2 ^ 150 : ℤ))]).2 ∈ events ∧
        LoadEvent.rootBuilt root ∈ events) :=
  ⟨by decide, by decide,
    magic_check_after_version_nonfatal ⟨"", [], 0, [], 0, none⟩
      [0, 0, 0, 64, 88, 89, 90] true "f" (fun st => (2, st))
      (2 ^ 150 : ℤ) (by decide) (by decide)⟩

end Rmf
